import Mathlib

/-!
# cmavnode: the link class (src/mlink.cpp)

A shallow embedding of the routing core of `mlink.cpp`: the per-link
statistics (`sysID_stats`, `link_quality`), the process-wide duplicate cache
(`recently_received`) and the functions that work on them.

Conventions of the embedding

* `boost::posix_time::ptime` and `time_duration` are integers counting
  microseconds (the resolution of `microsec_clock`).  A call of
  `microsec_clock::local_time()` is an explicit argument `now`.
* `std::map` / `std::unordered_map` / `std::set` are key-ordered lists;
  `operator[]` is `StdMap.at` (reading) followed by `StdMap.assign` (writing),
  which creates the entry when it is absent, as in C++.
* The static members of the class are gathered in `mlink_statics`; the
  members of one link object are the structure `mlink`.  Calls are atomic
  (every access to the statics in the source happens under
  `recently_received_mutex`).
* C++ leaves some executions undefined (incrementing an iterator that has
  just been erased).  Functions that can run into this return `Option`, and
  `none` stands for "no defined result".  A local variable that is read
  without having been written is an extra argument of the function.
-/

namespace CMavNode

/-! ## Ordered maps and sets -/

/-- A `std::map` with integer keys, as a list of entries. -/
abbrev StdMap (β : Type) := List (Nat × β)

/-- The lookup `m.find(k)`: the mapped value, `none` for `m.end()`. -/
def StdMap.find {β : Type} : StdMap β → Nat → Option β
  | [], _ => none
  | (k', v) :: t, k => if k = k' then some v else StdMap.find t k

/-- Writing `v` at key `k` (an `insert` of an absent key, or a store through
`m[k]`); entries stay in increasing key order. -/
def StdMap.assign {β : Type} : StdMap β → Nat → β → StdMap β
  | [], k, v => [(k, v)]
  | (k', v') :: t, k, v =>
    if k < k' then (k, v) :: (k', v') :: t
    else if k = k' then (k, v) :: t
    else (k', v') :: StdMap.assign t k v

/-- Reading `m[k]`: the mapped value, or the value-initialised one that
`operator[]` creates when the key is absent. -/
def StdMap.at {β : Type} [Inhabited β] (m : StdMap β) (k : Nat) : β :=
  (StdMap.find m k).getD default

/-- The call `s.insert(x)` on a `std::set`: sorted, without repetition. -/
def StdSet.insert : List Nat → Nat → List Nat
  | [], x => [x]
  | y :: t, x =>
    if x < y then x :: y :: t
    else if x = y then y :: t
    else y :: StdSet.insert t x

/-! ## Data model -/

/-- Modelled from the spec: `mavlink_message_t` is declared in the MAVLink
headers, which are not part of the sources; these are the fields that
`mlink.cpp` reads (8-bit `magic`, `len`, `seq`, `sysid`, `compid`, a message
kind `msgid`, the payload bytes and the 16-bit `checksum`). -/
structure mavlink_message_t where
  magic : Nat
  len : Nat
  seq : Nat
  sysid : Nat
  compid : Nat
  msgid : Nat
  payload : List Nat
  checksum : Nat
deriving DecidableEq, Repr

/-- Modelled from the spec: the MAVLink codec functions called by
`record_incoming_packet` and `find_crc_extra` (`mavlink_msg_to_send_buffer`,
`crc_calculate`, and `crc_accumulate` as the map from a data byte and the
checksum so far to the new checksum) live in the MAVLink headers, not in the
sources; they are taken as given. -/
structure mavlink_codec where
  mavlink_msg_to_send_buffer : mavlink_message_t → List Nat
  crc_calculate : List Nat → Nat
  crc_accumulate : Nat → Nat → Nat

/-- Modelled from the spec: `link_info` (LinkConfig) is declared in `mlink.h`,
which is not among the sources: link name, simulation flags, the
radio-status flag and the duplicate-rejection flag. -/
structure link_info where
  link_name : String := ""
  sim_enable : Bool := false
  sim_packet_loss : Int := 0
  SiK_radio : Bool := false
  reject_repeat_packets : Bool := false
deriving DecidableEq, Repr

/-- Modelled from the spec: `packet_stats` (PerSourceStats) is declared in
`mlink.h`, which is not among the sources.  The counters are integers without
overflow; `last_packet_time` is `none` for the `not_a_date_time` value of a
default-constructed `ptime`.  The default is the value-initialised entry that
`sysID_stats[id]` creates. -/
structure packet_stats where
  num_packets_received : Int := 0
  packets_lost : Int := 0
  packets_dropped : Int := 0
  last_packet_sequence : Nat := 0
  last_packet_time : Option Int := none
  out_packet_sequence : Nat := 0
deriving DecidableEq, Repr, Inhabited

/-- Modelled from the spec: `link_quality_stats` (LinkQuality) is declared in
`mlink.h`, which is not among the sources: the radio-health snapshot, the
time of the last heartbeat and the measured delay in seconds. -/
structure link_quality_stats where
  local_rssi : Nat := 0
  remote_rssi : Nat := 0
  tx_buffer : Nat := 0
  local_noise : Nat := 0
  remote_noise : Nat := 0
  rx_errors : Nat := 0
  corrected_packets : Nat := 0
  last_heartbeat : Int := 0
  link_delay : Int := 0
deriving DecidableEq, Repr, Inhabited

/-- The non-static members of one `mlink` object that `mlink.cpp` uses. -/
structure mlink where
  info : link_info := {}
  sysID_stats : StdMap packet_stats := []
  link_quality : link_quality_stats := {}
  recentPacketCount : Nat := 0
  recentPacketSent : Nat := 0
  is_kill : Bool := false
  qMavOut : List mavlink_message_t := []
  qMavIn : List mavlink_message_t := []
deriving DecidableEq, Repr

/-- The static members of class `mlink` (lines 12-15), shared by all links. -/
structure mlink_statics where
  recently_received : StdMap (StdMap Int) := []
  static_link_delay : List Int := []
  sysIDs_all_links : List Nat := []
deriving DecidableEq, Repr

/-- The cache entry for source `s` and payload CRC `f`, if there is one. -/
def cacheEntry (G : mlink_statics) (s f : Nat) : Option Int :=
  (StdMap.find G.recently_received s).bind (fun part => StdMap.find part f)

/-- One second, `time_duration(0,0,1,0)`, in microseconds. -/
def one_second : Int := 1000000

/-! ## The functions of mlink.cpp -/

/-- The function `mlink::record_packets_lost` (lines 241-265). -/
def record_packets_lost (L : mlink) (msg : mavlink_message_t) : mlink :=
  if msg.msgid ≠ 109 ∧ msg.msgid ≠ 166 ∧ L.recentPacketCount > 0 then
    let st := StdMap.at L.sysID_stats msg.sysid
    let st1 : packet_stats :=
      if st.last_packet_sequence > msg.seq then
        { st with packets_lost :=
            st.packets_lost + ((msg.seq : Int) - (st.last_packet_sequence : Int) + 255) }
      else
        { st with packets_lost :=
            st.packets_lost + ((msg.seq : Int) - (st.last_packet_sequence : Int) - 1) }
    { L with sysID_stats :=
        StdMap.assign L.sysID_stats msg.sysid { st1 with last_packet_sequence := msg.seq } }
  else if L.recentPacketCount = 0 then
    let st := StdMap.at L.sysID_stats msg.sysid
    { L with sysID_stats :=
        StdMap.assign L.sysID_stats msg.sysid { st with last_packet_sequence := msg.seq } }
  else L

/-- The payload CRC of lines 186-194; `crc0` is the indeterminate value the
local `payload_crc` holds when `msg.magic` is neither 254 nor 253. -/
def payload_crc (C : mavlink_codec) (crc0 : Nat) (msg : mavlink_message_t) : Nat :=
  let snapshot_array := C.mavlink_msg_to_send_buffer msg
  if msg.magic = 254 then C.crc_calculate ((snapshot_array.drop 6).take msg.len)
  else if msg.magic = 253 then C.crc_calculate ((snapshot_array.drop 11).take msg.len)
  else crc0

/-- The function `mlink::record_incoming_packet` (lines 166-211): the verdict (true =
forward), the link afterwards and the statics afterwards. -/
def record_incoming_packet (C : mavlink_codec) (crc0 : Nat) (now : Int)
    (L : mlink) (G : mlink_statics) (msg : mavlink_message_t) :
    Bool × mlink × mlink_statics :=
  let L1 := record_packets_lost L msg
  if msg.msgid = 0 ∨ L1.info.reject_repeat_packets = false then (true, L1, G)
  else
    let crc := payload_crc C crc0 msg
    let part := StdMap.at G.recently_received msg.sysid
    match StdMap.find part crc with
    | none =>
      (true, L1,
        { G with recently_received :=
            StdMap.assign G.recently_received msg.sysid (StdMap.assign part crc now) })
    | some _ =>
      let L2 : mlink :=
        match StdMap.find L1.sysID_stats msg.sysid with
        | some st =>
          let st1 : packet_stats := { st with packets_dropped := st.packets_dropped + 1 }
          { L1 with sysID_stats := StdMap.assign L1.sysID_stats msg.sysid st1 }
        | none => L1
      (false, L2, G)

/-- The function `mlink::max_delay` (lines 230-239): the largest element of
`static_link_delay`, not below the zero duration. -/
def max_delay (G : mlink_statics) : Int :=
  G.static_link_delay.foldl (fun ret delay => if delay > ret then delay else ret) 0

/-- The inner loop of `flush_recently_read` (lines 218-226) from the entry
`packet` on.  Erasing leaves the map without the entry, and the loop then
runs `++packet` on the iterator that `erase` has invalidated, for which C++
defines no behaviour: `none`.  Without an erase the partition is left as
it is. -/
def flush_packets (now : Int) (G : mlink_statics) : StdMap Int → Option Unit
  | [] => some ()
  | (_, first_seen) :: rest =>
    let elapsed_time := now - first_seen
    if elapsed_time > one_second ∧ elapsed_time > max_delay G then none
    else flush_packets now G rest

/-- The outer loop of `flush_recently_read` (lines 215-227) over the source
ids still to visit; `recently_received[*sysID]` creates an empty partition
for a source that has none. -/
def flush_sysIDs (now : Int) : List Nat → mlink_statics → Option mlink_statics
  | [], G => some G
  | sysID :: rest, G =>
    let recent_packet_map := StdMap.at G.recently_received sysID
    let G1 : mlink_statics :=
      { G with recently_received :=
          StdMap.assign G.recently_received sysID recent_packet_map }
    match flush_packets now G1 recent_packet_map with
    | none => none
    | some _ => flush_sysIDs now rest G1

/-- The function `mlink::flush_recently_read` (lines 213-228), the clock
reading `now`. -/
def flush_recently_read (now : Int) (G : mlink_statics) : Option mlink_statics :=
  flush_sysIDs now G.sysIDs_all_links G

/-- The accessor `time_duration::seconds()`: the seconds field of the normalised duration
(hours, minutes and fractional part left out), truncating towards zero. -/
def time_duration_seconds (d : Int) : Int :=
  Int.tmod (Int.tdiv d 1000000) 60

/-- The accessor `time_duration::total_milliseconds()`, truncating towards zero. -/
def total_milliseconds (d : Int) : Int :=
  Int.tdiv d 1000

/-- The tick count boost keeps in a `not_a_date_time` duration, which is what
`nowTime - t` is for a default-constructed `t` (the largest 64-bit value
minus one). -/
def not_a_date_time_ticks : Int := 9223372036854775806

/-- The duration `nowTime - t`; `t = none` is `not_a_date_time`. -/
def time_since (nowTime : Int) : Option Int → Int
  | some t => nowTime - t
  | none => not_a_date_time_ticks

/-- The function `mlink::updateRouting` (lines 109-136).  `newSysID0` is the indeterminate
value of the local `newSysID`, which the source declares without an
initialiser and writes only for a new source. -/
def updateRouting (nowTime : Int) (newSysID0 : Bool) (L : mlink) (G : mlink_statics)
    (msg : mavlink_message_t) : Option (mlink × mlink_statics) :=
  let st := StdMap.at L.sysID_stats msg.sysid
  let isNew : Bool := st.num_packets_received == 0
  let stats1 := StdMap.assign L.sysID_stats msg.sysid
    { st with num_packets_received := st.num_packets_received + 1 }
  let G1 : mlink_statics :=
    if isNew then { G with sysIDs_all_links := StdSet.insert G.sysIDs_all_links msg.sysid }
    else G
  let newSysID : Bool := if isNew then true else newSysID0
  let stats2 := StdMap.assign stats1 msg.sysid
    { StdMap.at stats1 msg.sysid with last_packet_time := some nowTime }
  let L1 : mlink := { L with sysID_stats := stats2 }
  if msg.msgid = 0 ∧ newSysID = false then
    let delay := nowTime - L.link_quality.last_heartbeat - one_second
    let L2 : mlink :=
      { L1 with link_quality :=
          { L1.link_quality with
            link_delay := time_duration_seconds delay
            last_heartbeat := nowTime } }
    match flush_recently_read nowTime G1 with
    | none => none
    | some G2 => some (L2, G2)
  else some (L1, G1)

/-- The loop of `checkForDeadSysID` (lines 149-162) from the entry `iter`
on.  `sysID_stats.erase(iter)` is followed by the `++iter` of the loop on
the invalidated iterator, for which C++ defines no behaviour: `none`.
Without an erase nothing is written. -/
def checkForDeadSysID_loop (MAV_PACKET_TIMEOUT_MS : Int) (nowTime : Int)
    (recentPacketCount : Nat) : StdMap packet_stats → Option Unit
  | [] => some ()
  | (_, stats) :: rest =>
    let dur := time_since nowTime stats.last_packet_time
    let time_between_packets := total_milliseconds dur
    if time_between_packets > MAV_PACKET_TIMEOUT_MS ∧ recentPacketCount > 0 then none
    else checkForDeadSysID_loop MAV_PACKET_TIMEOUT_MS nowTime recentPacketCount rest

/-- The function `mlink::checkForDeadSysID` (lines 139-163); the constant
`MAV_PACKET_TIMEOUT_MS` of `mlink.h` is an argument.  The function reads
and writes members of the link only, so the statics and the other links
are not part of its state. -/
def checkForDeadSysID (MAV_PACKET_TIMEOUT_MS : Int) (nowTime : Int) (L : mlink) :
    Option mlink :=
  match checkForDeadSysID_loop MAV_PACKET_TIMEOUT_MS nowTime L.recentPacketCount
      L.sysID_stats with
  | none => none
  | some _ => some L

/-- The table the specification (section 4.6) asks of the sweep, in its
words: an entry is erased if `now - last_packet_time > timeout` and at least
one packet has been received on the link; the other entries stay as they
are.  It is the reference the result of `checkForDeadSysID` is compared
with. -/
def spec_live_entries (MAV_PACKET_TIMEOUT_MS : Int) (nowTime : Int) (L : mlink) :
    StdMap packet_stats :=
  L.sysID_stats.filter (fun e =>
    !(decide (total_milliseconds (time_since nowTime e.2.last_packet_time)
        > MAV_PACKET_TIMEOUT_MS) && decide (L.recentPacketCount > 0)))

/-- The constructor `mlink::mlink` (lines 17-24): the link takes its
configuration and one zero slot is appended to `static_link_delay`.  The
other members start from their initialisers; seeding the random generator
is not part of the state. -/
def mlink_constructor (info_ : link_info) (G : mlink_statics) : mlink × mlink_statics :=
  ({ info := info_ },
    { G with static_link_delay := G.static_link_delay ++ [0] })

/-- The call `q.push(msg)` on a bounded queue of the given capacity: the
message is appended and true returned, or the queue is full and false is
returned. -/
def queue_push (capacity : Nat) (q : List mavlink_message_t) (msg : mavlink_message_t) :
    Bool × List mavlink_message_t :=
  if q.length < capacity then (true, q ++ [msg]) else (false, q)

/-- The function `mlink::qAddOutgoing` (lines 26-38); the queue capacity is
declared in `mlink.h` and is an argument.  A full queue is only logged. -/
def qAddOutgoing (MAV_OUTGOING_LENGTH : Nat) (L : mlink) (msg : mavlink_message_t) : mlink :=
  if L.is_kill = false then
    let returnCheck := queue_push MAV_OUTGOING_LENGTH L.qMavOut msg
    { L with qMavOut := returnCheck.2, recentPacketSent := L.recentPacketSent + 1 }
  else L

/-- The function `mlink::shouldDropPacket` (lines 83-94); `rand_value` is what
the call `rand()` returns, a number from 0 to `RAND_MAX`. -/
def shouldDropPacket (L : mlink) (rand_value : Nat) : Bool :=
  if L.info.sim_enable then
    let randnumber : Int := ((rand_value % 100 + 1 : Nat) : Int)
    if randnumber < L.info.sim_packet_loss then true else false
  else false

/-- Modelled from the spec: the MAVLink accessor `_MAV_RETURN_uint8_t(msg, ofs)`
lives in the MAVLink headers, not in the sources: the payload byte at the
offset. -/
def _MAV_RETURN_uint8_t (msg : mavlink_message_t) (ofs : Nat) : Nat :=
  msg.payload.getD ofs 0

/-- Modelled from the spec: the MAVLink accessor `_MAV_RETURN_uint16_t(msg, ofs)`
lives in the MAVLink headers, not in the sources: the little-endian 16-bit
value at the offset. -/
def _MAV_RETURN_uint16_t (msg : mavlink_message_t) (ofs : Nat) : Nat :=
  msg.payload.getD ofs 0 + 256 * msg.payload.getD (ofs + 1) 0

/-- The function `mlink::onMessageRecv` (lines 61-81): the returned value, the
link and the statics afterwards; undefined where `updateRouting` is. -/
def onMessageRecv (nowTime : Int) (newSysID0 : Bool) (L : mlink) (G : mlink_statics)
    (msg : mavlink_message_t) : Option (Bool × mlink × mlink_statics) :=
  let L0 : mlink := { L with recentPacketCount := L.recentPacketCount + 1 }
  match updateRouting nowTime newSysID0 L0 G msg with
  | none => none
  | some (L1, G1) =>
    let L2 : mlink :=
      if L1.info.SiK_radio = true ∧ (msg.msgid = 109 ∨ msg.msgid = 166) then
        { L1 with link_quality :=
            { L1.link_quality with
              local_rssi := _MAV_RETURN_uint8_t msg 4
              remote_rssi := _MAV_RETURN_uint8_t msg 5
              tx_buffer := _MAV_RETURN_uint8_t msg 6
              local_noise := _MAV_RETURN_uint8_t msg 7
              remote_noise := _MAV_RETURN_uint8_t msg 8
              rx_errors := _MAV_RETURN_uint16_t msg 0
              corrected_packets := _MAV_RETURN_uint16_t msg 2 } }
      else L1
    some (true, L2, G1)

/-- The radio-health fields of a link-quality record, in the order of lines
71-77. -/
def radio_health (q : link_quality_stats) : Nat × Nat × Nat × Nat × Nat × Nat × Nat :=
  (q.local_rssi, q.remote_rssi, q.tx_buffer, q.local_noise, q.remote_noise,
    q.rx_errors, q.corrected_packets)

/-- The search loop of `find_crc_extra` (lines 330-334) with the values of
`crc_extra_guess` (8 bits) and `tryChecksum` at the loop test; the result is
`crc_extra_guess` when the loop is left, `none` when it is still running
after `fuel` tests. -/
def find_crc_extra_loop (C : mavlink_codec) (msg : mavlink_message_t) (buffer : List Nat) :
    Nat → Nat → Nat → Option Nat
  | 0, _, _ => none
  | fuel + 1, crc_extra_guess, tryChecksum =>
    if msg.checksum ≠ tryChecksum then
      let tryChecksum1 := C.crc_calculate ((buffer.drop 1).take (msg.len + 5))
      find_crc_extra_loop C msg buffer fuel ((crc_extra_guess + 1) % 256)
        (C.crc_accumulate crc_extra_guess tryChecksum1)
    else some crc_extra_guess

/-- The function `mlink::find_crc_extra` (lines 317-343): the static set
`msgid_crc_extras_found` and the table `crc_extras` afterwards; `none` when
the search loop has not ended within `fuel` tests. -/
def find_crc_extra (C : mavlink_codec) (fuel : Nat) (msgid_crc_extras_found : List Nat)
    (msg : mavlink_message_t) (buffer : List Nat) (crc_extras : List Nat) :
    Option (List Nat × List Nat) :=
  if msg.msgid ∈ msgid_crc_extras_found then some (msgid_crc_extras_found, crc_extras)
  else
    match find_crc_extra_loop C msg buffer fuel 0 0 with
    | none => none
    | some crc_extra_guess =>
      some (StdSet.insert msgid_crc_extras_found msg.msgid,
        crc_extras.set msg.msgid crc_extra_guess)

/-! ## Concrete inputs for the examples -/

/-- A codec for the examples: the send buffer is six header bytes followed by
the payload, and the checksum is the byte sum modulo 65536. -/
def example_codec : mavlink_codec where
  mavlink_msg_to_send_buffer := fun msg =>
    [msg.magic, msg.len, msg.seq, msg.sysid, msg.compid, msg.msgid] ++ msg.payload
  crc_calculate := fun bytes => bytes.sum % 65536
  crc_accumulate := fun data crcAccum => (crcAccum + data) % 65536

/-- A link with duplicate rejection enabled and no statistics yet. -/
def example_link : mlink := { info := { reject_repeat_packets := true } }

/-- A MAVLink 1 message of kind 30 from source 7 with sequence number `seq`. -/
def example_msg (seq : Nat) : mavlink_message_t :=
  { magic := 254, len := 3, seq := seq, sysid := 7, compid := 1, msgid := 30,
    payload := [1, 2, 3], checksum := 0 }

/-- A heartbeat from source 7. -/
def example_heartbeat (seq : Nat) : mavlink_message_t :=
  { magic := 254, len := 3, seq := seq, sysid := 7, compid := 1, msgid := 0,
    payload := [1, 2, 3], checksum := 0 }

/-- A link with duplicate rejection enabled that has recorded packets and
holds the statistics `st` for source 7. -/
def example_link_with (st : packet_stats) : mlink :=
  { info := { reject_repeat_packets := true }, recentPacketCount := 1,
    sysID_stats := [(7, st)] }

/-- The link after `record_packets_lost` has stored the baseline 250 for
source 7 on a link without packets, and the packet has then been counted. -/
def example_after_baseline : mlink :=
  { record_packets_lost example_link (example_msg 250) with recentPacketCount := 1 }

/-- A link that has recorded a packet and has no entry for any source. -/
def example_counted_link : mlink := { recentPacketCount := 1 }

/-- A link that has recorded packets and last heard source 7 at time 0. -/
def example_silent_link : mlink :=
  { recentPacketCount := 1,
    sysID_stats := [(7, { num_packets_received := 1, last_packet_time := some 0 })] }

/-- A link in simulation mode with the given loss percentage. -/
def example_sim_link (sim_packet_loss : Int) : mlink :=
  { info := { sim_enable := true, sim_packet_loss := sim_packet_loss } }

/-- The statics after one link has been constructed, with source 7 known. -/
def example_statics : mlink_statics :=
  { (mlink_constructor {} {}).2 with sysIDs_all_links := [7] }

/-- The partition of source `s` that the specification (section 4.2) asks of
the flush, in its words: every entry whose age exceeds
`max(1 s, max_delay())` is removed, the others stay with their timestamps.
It is the reference the result of `flush_recently_read` is compared with. -/
def spec_flush_partition (now : Int) (G : mlink_statics) (s : Nat) : StdMap Int :=
  (StdMap.at G.recently_received s).filter
    (fun e => !decide (now - e.2 > max one_second (max_delay G)))

/-- Statics with one link, source 7 known, and one cache entry for source 7:
fingerprint 6, first seen at time 0. -/
def example_statics_cached : mlink_statics :=
  { example_statics with recently_received := [(7, [(6, 0)])] }

/-- A radio link that knows source 7 and holds a radio-health snapshot. -/
def example_radio_link : mlink :=
  { info := { SiK_radio := true }, recentPacketCount := 1,
    sysID_stats := [(7, { num_packets_received := 1, last_packet_time := some 0 })],
    link_quality := { local_rssi := 200, remote_rssi := 190, tx_buffer := 90,
                      local_noise := 40, remote_noise := 45, rx_errors := 2,
                      corrected_packets := 3, link_delay := 4 } }

/-- The keys of a map are strictly increasing along the list, as they are in
a `std::map`; in particular no key occurs twice. -/
def StdMap.keys_increasing {β : Type} (m : StdMap β) : Prop :=
  m.Pairwise (fun a b => a.1 < b.1)

/-- The number of entries that `recently_received` holds for source `s` and
fingerprint `f`. -/
def cache_entry_count (G : mlink_statics) (s f : Nat) : Nat :=
  ((G.recently_received.filter (fun p => decide (p.1 = s))).map
    (fun p => (p.2.filter (fun e => decide (e.1 = f))).length)).sum

/-- The statics that can be reached from an empty cache: by
`record_incoming_packet` calls of any link with any message at any time, by
`flush_recently_read` calls (where they have a defined result), and by steps
that leave `recently_received` alone (the constructor, the bookkeeping of
`updateRouting`). -/
inductive cache_reachable : mlink_statics → Prop
  | start (G : mlink_statics) : G.recently_received = [] → cache_reachable G
  | record (C : mavlink_codec) (crc0 : Nat) (now : Int) (L : mlink) (G : mlink_statics)
      (msg : mavlink_message_t) :
      cache_reachable G → cache_reachable (record_incoming_packet C crc0 now L G msg).2.2
  | flush (now : Int) (G G1 : mlink_statics) :
      cache_reachable G → flush_recently_read now G = some G1 → cache_reachable G1
  | other (G G1 : mlink_statics) :
      cache_reachable G → G1.recently_received = G.recently_received → cache_reachable G1

/-- The cache after the first message of source 7 (fingerprint 6) has been
recorded at time 0 on an empty cache. -/
def example_cache_after_first : mlink_statics :=
  (record_incoming_packet example_codec 0 0 example_link {} (example_msg 4)).2.2

/-- Modelled from the spec: the checksum step `crc_accumulate` of the MAVLink
headers (not in the sources), the X.25 checksum on 16 bits: one data byte is
folded into the checksum so far. -/
def x25_accumulate (data crcAccum : Nat) : Nat :=
  let tmp0 := (data ^^^ (crcAccum &&& 255)) % 256
  let tmp := (tmp0 ^^^ (tmp0 <<< 4)) % 256
  ((crcAccum >>> 8) ^^^ (tmp <<< 8) ^^^ (tmp <<< 3) ^^^ (tmp >>> 4)) % 65536

/-- Modelled from the spec: the MAVLink 1 codec of the MAVLink headers (not in
the sources): the send buffer is the six header bytes, the payload and the
two checksum bytes; `crc_calculate` folds the bytes into the start value
65535. -/
def x25_codec : mavlink_codec where
  mavlink_msg_to_send_buffer := fun msg =>
    [msg.magic, msg.len, msg.seq, msg.sysid, msg.compid, msg.msgid] ++ msg.payload
      ++ [msg.checksum % 256, msg.checksum / 256]
  crc_calculate := fun bytes => bytes.foldl (fun crc data => x25_accumulate data crc) 65535
  crc_accumulate := x25_accumulate

/-- A MAVLink 1 message of the custom kind 150 whose checksum 40121 was
computed with the checksum-extra 5. -/
def example_custom_msg : mavlink_message_t :=
  { magic := 254, len := 3, seq := 4, sysid := 7, compid := 1, msgid := 150,
    payload := [1, 2, 3], checksum := 40121 }

/-- A radio-status report (msgid 109) from source 7: 17 receive errors, 9
corrected packets, signal strengths 180 and 170, buffer 80, noise 30 and 35. -/
def example_radio_status : mavlink_message_t :=
  { magic := 254, len := 9, seq := 1, sysid := 7, compid := 1, msgid := 109,
    payload := [17, 0, 9, 0, 180, 170, 80, 30, 35], checksum := 0 }

/-! ## Lemmas on maps -/

theorem StdMap.find_assign {β : Type} (m : StdMap β) (k k2 : Nat) (v : β) :
    StdMap.find (StdMap.assign m k v) k2 = if k2 = k then some v else StdMap.find m k2 := by
  induction m with
  | nil =>
    by_cases h : k2 = k <;> simp [StdMap.assign, StdMap.find, h]
  | cons e t ih =>
    obtain ⟨k1, v1⟩ := e
    unfold StdMap.assign
    by_cases h1 : k < k1
    · simp only [h1, if_true]
      by_cases h : k2 = k <;> simp [StdMap.find, h]
    · simp only [h1, if_false]
      by_cases h2 : k = k1
      · subst h2
        by_cases h : k2 = k <;> simp [StdMap.find, h]
      · simp only [h2, if_false]
        by_cases h : k2 = k
        · subst h
          simp [StdMap.find, h2, ih]
        · by_cases h3 : k2 = k1
          · subst h3
            simp [StdMap.find, h]
          · simp [StdMap.find, h, h3, ih]

theorem StdMap.find_assign_self {β : Type} (m : StdMap β) (k : Nat) (v : β) :
    StdMap.find (StdMap.assign m k v) k = some v := by
  simp [StdMap.find_assign]

theorem StdMap.at_assign {β : Type} [Inhabited β] (m : StdMap β) (k k2 : Nat) (v : β) :
    StdMap.at (StdMap.assign m k v) k2 = if k2 = k then v else StdMap.at m k2 := by
  unfold StdMap.at
  rw [StdMap.find_assign]
  by_cases h : k2 = k <;> simp [h]

theorem StdMap.at_assign_self {β : Type} [Inhabited β] (m : StdMap β) (k : Nat) (v : β) :
    StdMap.at (StdMap.assign m k v) k = v := by
  simp [StdMap.at_assign]

/-! ## Lemmas on record_packets_lost -/

theorem record_packets_lost_info (L : mlink) (msg : mavlink_message_t) :
    (record_packets_lost L msg).info = L.info := by
  unfold record_packets_lost
  split_ifs <;> rfl

theorem record_packets_lost_count (L : mlink) (msg : mavlink_message_t) :
    (record_packets_lost L msg).recentPacketCount = L.recentPacketCount := by
  unfold record_packets_lost
  split_ifs <;> rfl

theorem record_packets_lost_dropped (L : mlink) (msg : mavlink_message_t) (id : Nat) :
    (StdMap.at (record_packets_lost L msg).sysID_stats id).packets_dropped
      = (StdMap.at L.sysID_stats id).packets_dropped := by
  unfold record_packets_lost
  by_cases h : id = msg.sysid
  · subst h
    split_ifs
    · simp only [StdMap.at_assign_self]
      split_ifs <;> rfl
    · simp only [StdMap.at_assign_self]
    · rfl
  · split_ifs <;> simp [StdMap.at_assign, h]

/-- The cache holds no entry for `(s, f)` exactly when the lookup that
`record_incoming_packet` performs comes back with `end()`. -/
theorem cacheEntry_eq_find (G : mlink_statics) (s f : Nat) :
    StdMap.find (StdMap.at G.recently_received s) f = cacheEntry G s f := by
  unfold cacheEntry StdMap.at
  cases h : StdMap.find G.recently_received s <;> simp [StdMap.find]

/-- The verdict of `record_incoming_packet` for a message that is checked
against the cache: forward exactly when the cache has no entry for it. -/
theorem record_incoming_packet_verdict (C : mavlink_codec) (crc0 : Nat) (now : Int)
    (L : mlink) (G : mlink_statics) (msg : mavlink_message_t)
    (hrej : L.info.reject_repeat_packets = true) (hid : msg.msgid ≠ 0) :
    (record_incoming_packet C crc0 now L G msg).1
      = (cacheEntry G msg.sysid (payload_crc C crc0 msg)).isNone := by
  unfold record_incoming_packet
  simp only [record_packets_lost_info, hrej, hid, false_or, Bool.true_eq_false, if_false]
  rw [cacheEntry_eq_find]
  cases h : cacheEntry G msg.sysid (payload_crc C crc0 msg) <;> simp

/-- The cache after `record_incoming_packet` has inserted a new entry. -/
theorem record_incoming_packet_insert (C : mavlink_codec) (crc0 : Nat) (now : Int)
    (L : mlink) (G : mlink_statics) (msg : mavlink_message_t)
    (hrej : L.info.reject_repeat_packets = true) (hid : msg.msgid ≠ 0)
    (hnone : cacheEntry G msg.sysid (payload_crc C crc0 msg) = none) :
    cacheEntry (record_incoming_packet C crc0 now L G msg).2.2 msg.sysid
      (payload_crc C crc0 msg) = some now := by
  unfold record_incoming_packet
  simp only [record_packets_lost_info, hrej, hid, false_or, Bool.true_eq_false, if_false]
  rw [cacheEntry_eq_find, hnone]
  simp [cacheEntry, StdMap.find_assign]

/-! ## Duplicate rejection (record_incoming_packet) -/

/-- C1: two links A and B with duplicate rejection enabled share the cache.
If the cache has no entry for source `s` and fingerprint `f`, then
`record_incoming_packet` on A for a non-heartbeat message with this source
and fingerprint returns true and inserts `(s, f)` with the time of the call,
and the following call for a non-heartbeat message with the same source and
fingerprint returns false, on any link B and also on A itself as the first
call left it. -/
theorem C1_second_link_sees_duplicate (C : mavlink_codec) (crcA crcB : Nat) (t1 t2 : Int)
    (A B : mlink) (G : mlink_statics) (m1 m2 : mavlink_message_t) (s f : Nat)
    (hA : A.info.reject_repeat_packets = true) (hB : B.info.reject_repeat_packets = true)
    (h1 : m1.msgid ≠ 0) (h2 : m2.msgid ≠ 0)
    (hs1 : m1.sysid = s) (hs2 : m2.sysid = s)
    (hf1 : payload_crc C crcA m1 = f) (hf2 : payload_crc C crcB m2 = f)
    (hnone : cacheEntry G s f = none) :
    (record_incoming_packet C crcA t1 A G m1).1 = true
    ∧ cacheEntry (record_incoming_packet C crcA t1 A G m1).2.2 s f = some t1
    ∧ (record_incoming_packet C crcB t2 B
        (record_incoming_packet C crcA t1 A G m1).2.2 m2).1 = false
    ∧ (record_incoming_packet C crcB t2 (record_incoming_packet C crcA t1 A G m1).2.1
        (record_incoming_packet C crcA t1 A G m1).2.2 m2).1 = false := by
  subst hs1 hf1
  have hins := record_incoming_packet_insert C crcA t1 A G m1 hA h1 hnone
  have hA1 : (record_incoming_packet C crcA t1 A G m1).2.1.info.reject_repeat_packets
      = true := by
    unfold record_incoming_packet
    simp only [record_packets_lost_info, hA, h1, false_or, Bool.true_eq_false, if_false]
    rw [cacheEntry_eq_find, hnone]
    simp [record_packets_lost_info, hA]
  refine ⟨?_, hins, ?_, ?_⟩
  · rw [record_incoming_packet_verdict C crcA t1 A G m1 hA h1, hnone]
    rfl
  · rw [record_incoming_packet_verdict C crcB t2 B _ m2 hB h2, hs2, hf2, hins]
    rfl
  · rw [record_incoming_packet_verdict C crcB t2 _ _ m2 hA1 h2, hs2, hf2, hins]
    rfl

/-- C1 at source 7, fingerprint 6, the calls at 0 s and 0.05 s. -/
theorem C1_second_link_sees_duplicate_witness :
    (record_incoming_packet example_codec 0 0 example_link {} (example_msg 4)).1 = true
    ∧ cacheEntry (record_incoming_packet example_codec 0 0 example_link {}
        (example_msg 4)).2.2 7 6 = some 0
    ∧ (record_incoming_packet example_codec 0 50000 example_link
        (record_incoming_packet example_codec 0 0 example_link {} (example_msg 4)).2.2
        (example_msg 9)).1 = false
    ∧ (record_incoming_packet example_codec 0 50000
        (record_incoming_packet example_codec 0 0 example_link {} (example_msg 4)).2.1
        (record_incoming_packet example_codec 0 0 example_link {} (example_msg 4)).2.2
        (example_msg 9)).1 = false :=
  C1_second_link_sees_duplicate example_codec 0 0 0 50000 example_link example_link {}
    (example_msg 4) (example_msg 9) 7 6 rfl rfl (by decide) (by decide) rfl rfl
    (by decide) (by decide) (by decide)

/-- C2: for a heartbeat (msgid 0), and for any message on a link whose
`reject_repeat_packets` flag is false, `record_incoming_packet` returns true
and leaves the statics (the cache among them) and every `packets_dropped`
counter of the link as they were, whatever the cache holds.  The link keeps
its configuration, so the same holds for every repetition of the call. -/
theorem C2_heartbeat_or_disabled_forwards (C : mavlink_codec) (crc0 : Nat) (now : Int)
    (L : mlink) (G : mlink_statics) (msg : mavlink_message_t)
    (h : msg.msgid = 0 ∨ L.info.reject_repeat_packets = false) :
    (record_incoming_packet C crc0 now L G msg).1 = true
    ∧ (record_incoming_packet C crc0 now L G msg).2.2 = G
    ∧ (∀ id : Nat,
        (StdMap.at (record_incoming_packet C crc0 now L G msg).2.1.sysID_stats id).packets_dropped
          = (StdMap.at L.sysID_stats id).packets_dropped)
    ∧ (record_incoming_packet C crc0 now L G msg).2.1.info = L.info := by
  have h0 : msg.msgid = 0 ∨ (record_packets_lost L msg).info.reject_repeat_packets = false := by
    rw [record_packets_lost_info]
    exact h
  unfold record_incoming_packet
  simp only [h0, if_true]
  exact ⟨trivial, trivial, fun id => record_packets_lost_dropped L msg id,
    record_packets_lost_info L msg⟩

/-- C2 for a heartbeat whose fingerprint is already in the cache. -/
theorem C2_heartbeat_or_disabled_forwards_witness :
    (record_incoming_packet example_codec 0 50000 example_link
        { recently_received := [(7, [(6, 0)])] } (example_heartbeat 5)).1 = true
    ∧ (record_incoming_packet example_codec 0 50000 example_link
        { recently_received := [(7, [(6, 0)])] } (example_heartbeat 5)).2.2
        = { recently_received := [(7, [(6, 0)])] }
    ∧ (∀ id : Nat,
        (StdMap.at (record_incoming_packet example_codec 0 50000 example_link
          { recently_received := [(7, [(6, 0)])] }
          (example_heartbeat 5)).2.1.sysID_stats id).packets_dropped
          = (StdMap.at example_link.sysID_stats id).packets_dropped)
    ∧ (record_incoming_packet example_codec 0 50000 example_link
        { recently_received := [(7, [(6, 0)])] } (example_heartbeat 5)).2.1.info
        = example_link.info :=
  C2_heartbeat_or_disabled_forwards example_codec 0 50000 example_link
    { recently_received := [(7, [(6, 0)])] } (example_heartbeat 5) (Or.inl rfl)

/-- C3 (as stated) fails: with no measured delay, a message recorded at 0 s
and its repetition recorded at 5 s, more than max(1 s, max_delay()) later and
with nothing in between, are not both forwarded: the second call returns
false, because the entry is still in the cache. -/
theorem C3_counterexample_no_flush_between :
    (5000000 : Int) - 0 > max one_second (max_delay { static_link_delay := [0] })
    ∧ (record_incoming_packet example_codec 0 0 example_link
        { static_link_delay := [0] } (example_msg 4)).1 = true
    ∧ (record_incoming_packet example_codec 0 5000000 example_link
        (record_incoming_packet example_codec 0 0 example_link
          { static_link_delay := [0] } (example_msg 4)).2.2 (example_msg 5)).1 = false := by
  decide

/-- The function `record_incoming_packet` removes nothing from the cache: an entry that is
there before the call is there afterwards, with its timestamp. -/
theorem record_incoming_packet_keeps_entries (C : mavlink_codec) (crc0 : Nat) (now : Int)
    (L : mlink) (G : mlink_statics) (msg : mavlink_message_t) (s f : Nat) (t : Int)
    (h : cacheEntry G s f = some t) :
    cacheEntry (record_incoming_packet C crc0 now L G msg).2.2 s f = some t := by
  unfold record_incoming_packet
  by_cases h0 : msg.msgid = 0 ∨ (record_packets_lost L msg).info.reject_repeat_packets = false
  · simp only [h0, if_true]
    exact h
  · simp only [h0, if_false]
    rw [cacheEntry_eq_find]
    cases hc : cacheEntry G msg.sysid (payload_crc C crc0 msg) with
    | some t0 => exact h
    | none =>
      simp only [cacheEntry, StdMap.find_assign]
      by_cases hs : s = msg.sysid
      · subst hs
        by_cases hf : f = payload_crc C crc0 msg
        · subst hf
          rw [hc] at h
          exact absurd h (by simp)
        · simp only [if_true, Option.some_bind, StdMap.find_assign, hf, if_false]
          rw [cacheEntry_eq_find]
          exact h
      · simp only [hs, if_false]
        exact h

/-- C3 (amended): two non-heartbeat messages with the same source and
fingerprint are recorded (rejection enabled) at `t1` and `t2` with `t2 - t1`
greater than max(1 s, max_delay()).  The first call, made on a cache without
the entry, returns true and stores the entry.  `record_incoming_packet`
evicts nothing, so the entry is still there when the second call follows
with nothing in between, and that call returns false however large the gap
is; on whatever cache `G2` the second call runs, it returns true exactly
when `G2` has no entry for the source and fingerprint. -/
theorem C3_forwarded_again_only_after_removal (C : mavlink_codec) (crcA crcB : Nat)
    (t1 t2 : Int) (A B : mlink) (G : mlink_statics) (m1 m2 : mavlink_message_t) (s f : Nat)
    (hA : A.info.reject_repeat_packets = true) (hB : B.info.reject_repeat_packets = true)
    (h1 : m1.msgid ≠ 0) (h2 : m2.msgid ≠ 0)
    (hs1 : m1.sysid = s) (hs2 : m2.sysid = s)
    (hf1 : payload_crc C crcA m1 = f) (hf2 : payload_crc C crcB m2 = f)
    (hnone : cacheEntry G s f = none)
    (_hgap : t2 - t1 > max one_second (max_delay G)) :
    (record_incoming_packet C crcA t1 A G m1).1 = true
    ∧ (record_incoming_packet C crcB t2 B
        (record_incoming_packet C crcA t1 A G m1).2.2 m2).1 = false
    ∧ (∀ G2 : mlink_statics,
        (record_incoming_packet C crcB t2 B G2 m2).1 = true ↔ cacheEntry G2 s f = none) := by
  subst hs1 hf1
  have hins := record_incoming_packet_insert C crcA t1 A G m1 hA h1 hnone
  refine ⟨?_, ?_, ?_⟩
  · rw [record_incoming_packet_verdict C crcA t1 A G m1 hA h1, hnone]
    rfl
  · rw [record_incoming_packet_verdict C crcB t2 B _ m2 hB h2, hs2, hf2, hins]
    rfl
  · intro G2
    rw [record_incoming_packet_verdict C crcB t2 B G2 m2 hB h2, hs2, hf2]
    cases cacheEntry G2 m1.sysid (payload_crc C crcA m1) <;> simp

/-- C3 (amended) for the calls at 0 s and 5 s with no measured delay. -/
theorem C3_forwarded_again_only_after_removal_witness :
    (record_incoming_packet example_codec 0 0 example_link
        { static_link_delay := [0] } (example_msg 4)).1 = true
    ∧ (record_incoming_packet example_codec 0 5000000 example_link
        (record_incoming_packet example_codec 0 0 example_link
          { static_link_delay := [0] } (example_msg 4)).2.2 (example_msg 5)).1 = false
    ∧ (∀ G2 : mlink_statics,
        (record_incoming_packet example_codec 0 5000000 example_link G2 (example_msg 5)).1
          = true ↔ cacheEntry G2 7 6 = none) :=
  C3_forwarded_again_only_after_removal example_codec 0 0 0 5000000 example_link
    example_link { static_link_delay := [0] } (example_msg 4) (example_msg 5) 7 6
    rfl rfl (by decide) (by decide) rfl rfl (by decide) (by decide) (by decide) (by decide)

/-! ## Loss accounting (record_packets_lost) -/

/-- The entry of the message's source after `record_packets_lost` on a link
that has recorded packets, for a message that is not a radio-status report. -/
theorem record_packets_lost_tracked (L : mlink) (msg : mavlink_message_t)
    (h109 : msg.msgid ≠ 109) (h166 : msg.msgid ≠ 166) (hcount : L.recentPacketCount > 0) :
    StdMap.at (record_packets_lost L msg).sysID_stats msg.sysid
      = { StdMap.at L.sysID_stats msg.sysid with
          packets_lost := (StdMap.at L.sysID_stats msg.sysid).packets_lost
            + (if (StdMap.at L.sysID_stats msg.sysid).last_packet_sequence > msg.seq
               then (msg.seq : Int)
                 - ((StdMap.at L.sysID_stats msg.sysid).last_packet_sequence : Int) + 255
               else (msg.seq : Int)
                 - ((StdMap.at L.sysID_stats msg.sysid).last_packet_sequence : Int) - 1)
          last_packet_sequence := msg.seq } := by
  unfold record_packets_lost
  have hc : msg.msgid ≠ 109 ∧ msg.msgid ≠ 166 ∧ L.recentPacketCount > 0 := ⟨h109, h166, hcount⟩
  rw [if_pos hc]
  dsimp only
  rw [StdMap.at_assign_self]
  split_ifs <;> rfl

/-- Entries of other sources are not touched by `record_packets_lost`. -/
theorem record_packets_lost_other (L : mlink) (msg : mavlink_message_t) (id : Nat)
    (h : id ≠ msg.sysid) :
    StdMap.find (record_packets_lost L msg).sysID_stats id = StdMap.find L.sysID_stats id := by
  unfold record_packets_lost
  split_ifs <;> simp [StdMap.find_assign, h]

/-- C5: for 8-bit sequence numbers with the new one behind the stored one
(`msg.seq < prev_seq`), what `record_packets_lost` adds to `packets_lost` is
the forward distance `(new_seq - prev_seq - 1) mod 256`, and it is not
negative. -/
theorem C5_wrapped_gap_is_forward_distance (L : mlink) (msg : mavlink_message_t)
    (h109 : msg.msgid ≠ 109) (h166 : msg.msgid ≠ 166) (hcount : L.recentPacketCount > 0)
    (hprev : (StdMap.at L.sysID_stats msg.sysid).last_packet_sequence < 256)
    (hwrap : msg.seq < (StdMap.at L.sysID_stats msg.sysid).last_packet_sequence) :
    (StdMap.at (record_packets_lost L msg).sysID_stats msg.sysid).packets_lost
        - (StdMap.at L.sysID_stats msg.sysid).packets_lost
      = ((msg.seq : Int)
          - ((StdMap.at L.sysID_stats msg.sysid).last_packet_sequence : Int) - 1) % 256
    ∧ 0 ≤ (StdMap.at (record_packets_lost L msg).sysID_stats msg.sysid).packets_lost
        - (StdMap.at L.sysID_stats msg.sysid).packets_lost := by
  rw [record_packets_lost_tracked L msg h109 h166 hcount]
  simp only [gt_iff_lt, hwrap, if_true]
  constructor <;> omega

/-- C5 at the example of the specification: stored 254, next 1, gap 2. -/
theorem C5_wrapped_gap_is_forward_distance_witness :
    (StdMap.at (record_packets_lost (example_link_with { last_packet_sequence := 254 })
        (example_msg 1)).sysID_stats (example_msg 1).sysid).packets_lost
        - (StdMap.at (example_link_with { last_packet_sequence := 254 }).sysID_stats
            (example_msg 1).sysid).packets_lost
      = (((example_msg 1).seq : Int)
          - ((StdMap.at (example_link_with { last_packet_sequence := 254 }).sysID_stats
              (example_msg 1).sysid).last_packet_sequence : Int) - 1) % 256
    ∧ 0 ≤ (StdMap.at (record_packets_lost (example_link_with { last_packet_sequence := 254 })
        (example_msg 1)).sysID_stats (example_msg 1).sysid).packets_lost
        - (StdMap.at (example_link_with { last_packet_sequence := 254 }).sysID_stats
            (example_msg 1).sysid).packets_lost :=
  C5_wrapped_gap_is_forward_distance (example_link_with { last_packet_sequence := 254 })
    (example_msg 1) (by decide) (by decide) (by decide) (by decide) (by decide)

/-- Consecutive sequence numbers from a baseline: after each message the
counter is still 0 and the baseline has moved on by one. -/
theorem record_packets_lost_consecutive (s : Nat) (msgs : List mavlink_message_t) :
    ∀ (L : mlink) (s0 : Nat), L.recentPacketCount > 0 →
      (StdMap.at L.sysID_stats s).packets_lost = 0 →
      (StdMap.at L.sysID_stats s).last_packet_sequence = s0 →
      (∀ m ∈ msgs, m.sysid = s ∧ m.msgid ≠ 109 ∧ m.msgid ≠ 166) →
      msgs.map (fun m => m.seq) = List.range' (s0 + 1) msgs.length →
      ∀ k : Nat, k ≤ msgs.length →
        (StdMap.at ((msgs.take k).foldl record_packets_lost L).sysID_stats s).packets_lost = 0
        ∧ (StdMap.at ((msgs.take k).foldl record_packets_lost L).sysID_stats
            s).last_packet_sequence = s0 + k := by
  induction msgs with
  | nil =>
    intro L s0 _ hlost hbase _ _ k hk
    have hk0 : k = 0 := by simpa using hk
    subst hk0
    exact ⟨hlost, hbase⟩
  | cons m rest ih =>
    intro L s0 hcount hlost hbase hsrc hseq k hk
    cases k with
    | zero => exact ⟨hlost, hbase⟩
    | succ k =>
      have hm := hsrc m (List.mem_cons_self m rest)
      obtain ⟨hms, h109, h166⟩ := hm
      simp only [List.map_cons, List.length_cons, List.range'_succ, List.cons.injEq] at hseq
      obtain ⟨hmseq, hrest⟩ := hseq
      have hstep := record_packets_lost_tracked L m h109 h166 hcount
      rw [hms, hlost, hbase, hmseq] at hstep
      have hnot : ¬ (s0 > s0 + 1) := by omega
      simp only [hnot, if_false] at hstep
      have hlost1 : (StdMap.at (record_packets_lost L m).sysID_stats s).packets_lost = 0 := by
        rw [hstep]
        simp
      have hbase1 : (StdMap.at (record_packets_lost L m).sysID_stats s).last_packet_sequence
          = s0 + 1 := by
        rw [hstep]
      have hcount1 : (record_packets_lost L m).recentPacketCount > 0 := by
        rw [record_packets_lost_count]
        exact hcount
      have hrec := ih (record_packets_lost L m) (s0 + 1) hcount1 hlost1 hbase1
        (fun m1 hm1 => hsrc m1 (List.mem_cons_of_mem m hm1)) hrest k
        (by simpa using hk)
      simp only [List.take_succ_cons, List.foldl_cons]
      refine ⟨hrec.1, ?_⟩
      rw [hrec.2]
      omega

/-- C6: on a link with `recentPacketCount > 0` where source `s` has
`packets_lost = 0` and baseline `s0`, for every list of messages of `s`
that are not radio-status reports and carry the sequence numbers
`s0 + 1, s0 + 2, ...` without passing 255, `packets_lost` of `s` is 0 after
each `record_packets_lost` call of the list (after the first `k` calls, for
every `k` up to the length of the list), and the baseline is then `s0 + k`,
still an 8-bit value. -/
theorem C6_no_gap_no_loss (L : mlink) (s s0 : Nat) (msgs : List mavlink_message_t) (k : Nat)
    (hcount : L.recentPacketCount > 0)
    (hlost : (StdMap.at L.sysID_stats s).packets_lost = 0)
    (hbase : (StdMap.at L.sysID_stats s).last_packet_sequence = s0)
    (hsrc : ∀ m ∈ msgs, m.sysid = s ∧ m.msgid ≠ 109 ∧ m.msgid ≠ 166)
    (hseq : msgs.map (fun m => m.seq) = List.range' (s0 + 1) msgs.length)
    (hnowrap : s0 + msgs.length ≤ 255)
    (hk : k ≤ msgs.length) :
    (StdMap.at ((msgs.take k).foldl record_packets_lost L).sysID_stats s).packets_lost = 0
    ∧ (StdMap.at ((msgs.take k).foldl record_packets_lost L).sysID_stats
        s).last_packet_sequence = s0 + k
    ∧ s0 + k ≤ 255 := by
  have h := record_packets_lost_consecutive s msgs L s0 hcount hlost hbase hsrc hseq k hk
  exact ⟨h.1, h.2, by omega⟩

/-- C6 for baseline 250 and the messages 251, 252, 253, after all three. -/
theorem C6_no_gap_no_loss_witness :
    (StdMap.at (([example_msg 251, example_msg 252, example_msg 253].take 3).foldl
      record_packets_lost (example_link_with { last_packet_sequence := 250 })).sysID_stats
      7).packets_lost = 0
    ∧ (StdMap.at (([example_msg 251, example_msg 252, example_msg 253].take 3).foldl
      record_packets_lost (example_link_with { last_packet_sequence := 250 })).sysID_stats
      7).last_packet_sequence = 250 + 3
    ∧ 250 + 3 ≤ 255 :=
  C6_no_gap_no_loss (example_link_with { last_packet_sequence := 250 }) 7 250
    [example_msg 251, example_msg 252, example_msg 253] 3
    (by decide) (by decide) (by decide) (by decide) (by decide) (by decide) (by decide)

/-- C7 (as stated) fails: for the sequence numbers 250 (baseline, no loss
counted), 252 and 0 the cumulative `packets_lost` is 4, not 3: the step from
252 to 0 adds 0 - 252 + 255 = 3 for the skipped 253, 254 and 255. -/
theorem C7_counterexample_total_is_four :
    (StdMap.at example_after_baseline.sysID_stats 7).packets_lost = 0
    ∧ (StdMap.at (record_packets_lost example_after_baseline
        (example_msg 252)).sysID_stats 7).packets_lost = 1
    ∧ (StdMap.at (record_packets_lost (record_packets_lost example_after_baseline
        (example_msg 252)) (example_msg 0)).sysID_stats 7).packets_lost = 4
    ∧ (StdMap.at (record_packets_lost (record_packets_lost example_after_baseline
        (example_msg 252)) (example_msg 0)).sysID_stats 7).packets_lost ≠ 3 := by
  decide

/-- C7 (amended): one source on one link sends messages that are not
radio-status reports with the sequence numbers 250, 252 and 0, where 250
has established the baseline (`packets_lost = 0` after it) and the two later
messages are handled by `record_packets_lost` with `recentPacketCount > 0`.
The cumulative `packets_lost` is 1 after the step 250 to 252 and
1 + 3 = 4 at the end: the wrapping step 252 to 0 adds 3. -/
theorem C7_cumulative_loss_250_252_0 (L : mlink) (s : Nat) (m2 m3 : mavlink_message_t)
    (hcount : L.recentPacketCount > 0)
    (hlost : (StdMap.at L.sysID_stats s).packets_lost = 0)
    (hbase : (StdMap.at L.sysID_stats s).last_packet_sequence = 250)
    (hs2 : m2.sysid = s) (hs3 : m3.sysid = s)
    (hseq2 : m2.seq = 252) (hseq3 : m3.seq = 0)
    (hkind2 : m2.msgid ≠ 109 ∧ m2.msgid ≠ 166) (hkind3 : m3.msgid ≠ 109 ∧ m3.msgid ≠ 166) :
    (StdMap.at (record_packets_lost L m2).sysID_stats s).packets_lost = 1
    ∧ (StdMap.at (record_packets_lost (record_packets_lost L m2) m3).sysID_stats
        s).packets_lost = 1 + 3 := by
  have hstep2 := record_packets_lost_tracked L m2 hkind2.1 hkind2.2 hcount
  rw [hs2, hlost, hbase, hseq2] at hstep2
  have hcount2 : (record_packets_lost L m2).recentPacketCount > 0 := by
    rw [record_packets_lost_count]
    exact hcount
  have hstep3 := record_packets_lost_tracked (record_packets_lost L m2) m3
    hkind3.1 hkind3.2 hcount2
  rw [hs3, hstep2, hseq3] at hstep3
  rw [hstep3, hstep2]
  simp

/-- C7 (amended) on the link that holds the baseline 250 for source 7. -/
theorem C7_cumulative_loss_250_252_0_witness :
    (StdMap.at (record_packets_lost example_after_baseline
        (example_msg 252)).sysID_stats 7).packets_lost = 1
    ∧ (StdMap.at (record_packets_lost (record_packets_lost example_after_baseline
        (example_msg 252)) (example_msg 0)).sysID_stats 7).packets_lost = 1 + 3 :=
  C7_cumulative_loss_250_252_0 example_after_baseline 7 (example_msg 252) (example_msg 0)
    (by decide) (by decide) (by decide) rfl rfl rfl rfl (by decide) (by decide)

/-- The baseline-only branch (lines 261-264): on a link that has not recorded
a packet yet, the first packet of a source without an entry only stores the
baseline; the entry created has `last_packet_sequence = msg.seq`,
`packets_lost = 0` and is otherwise the value-initialised entry. -/
theorem record_packets_lost_first_on_link (L : mlink) (msg : mavlink_message_t)
    (hcount : L.recentPacketCount = 0)
    (hnew : StdMap.find L.sysID_stats msg.sysid = none) :
    StdMap.find (record_packets_lost L msg).sysID_stats msg.sysid
      = some { last_packet_sequence := msg.seq }
    ∧ (StdMap.at (record_packets_lost L msg).sysID_stats msg.sysid).last_packet_sequence
      = msg.seq
    ∧ (StdMap.at (record_packets_lost L msg).sysID_stats msg.sysid).packets_lost = 0 := by
  have hnot : ¬ (msg.msgid ≠ 109 ∧ msg.msgid ≠ 166 ∧ L.recentPacketCount > 0) := by
    rw [hcount]
    simp
  have hat : StdMap.at L.sysID_stats msg.sysid = default := by
    unfold StdMap.at
    rw [hnew]
    rfl
  have hfind : StdMap.find (record_packets_lost L msg).sysID_stats msg.sysid
      = some { last_packet_sequence := msg.seq } := by
    unfold record_packets_lost
    rw [if_neg hnot, if_pos hcount]
    dsimp only
    rw [StdMap.find_assign_self, hat]
    rfl
  refine ⟨hfind, ?_, ?_⟩ <;> unfold StdMap.at <;> rw [hfind] <;> rfl

/-- The first packet of a source without an entry on a link that has already
recorded packets takes the loss branch (lines 244-260): the loss is computed
against the sequence number 0 of the entry that `sysID_stats[msg.sysid]`
creates, so `packets_lost` becomes `msg.seq - 1`. -/
theorem record_packets_lost_new_source_on_used_link (L : mlink) (msg : mavlink_message_t)
    (h109 : msg.msgid ≠ 109) (h166 : msg.msgid ≠ 166) (hcount : L.recentPacketCount > 0)
    (hnew : StdMap.find L.sysID_stats msg.sysid = none) :
    (StdMap.at (record_packets_lost L msg).sysID_stats msg.sysid).packets_lost
      = (msg.seq : Int) - 1
    ∧ (StdMap.at (record_packets_lost L msg).sysID_stats msg.sysid).last_packet_sequence
      = msg.seq := by
  have hat : StdMap.at L.sysID_stats msg.sysid = default := by
    unfold StdMap.at
    rw [hnew]
    rfl
  rw [record_packets_lost_tracked L msg h109 h166 hcount, hat]
  have hd : (default : packet_stats).last_packet_sequence = 0 := rfl
  have hl : (default : packet_stats).packets_lost = 0 := rfl
  refine ⟨?_, rfl⟩
  simp only [hd, hl, gt_iff_lt, Nat.not_lt_zero, if_false]
  push_cast
  omega

/-- C8 (the code at the failing input): source 7 has no entry on a link that
has already recorded a packet (`recentPacketCount = 1`).  The claim asks that
its first packet only stores the baseline, with `packets_lost = 0`.  The
baseline-only branch is taken only while the link-wide `recentPacketCount`
is 0, so the packet goes through the loss branch against the sequence
number 0 of the new entry: sequence number 5 leaves `packets_lost = 4`,
sequence number 0 leaves `packets_lost = -1`.  On a link without packets
the same packet does what the claim says. -/
theorem C8_new_source_on_used_link_counts_loss :
    StdMap.find example_counted_link.sysID_stats 7 = none
    ∧ example_counted_link.recentPacketCount = 1
    ∧ (StdMap.at (record_packets_lost example_counted_link
        (example_msg 5)).sysID_stats 7).last_packet_sequence = 5
    ∧ (StdMap.at (record_packets_lost example_counted_link
        (example_msg 5)).sysID_stats 7).packets_lost = 4
    ∧ (StdMap.at (record_packets_lost example_counted_link
        (example_msg 0)).sysID_stats 7).packets_lost = -1
    ∧ (StdMap.at (record_packets_lost example_link
        (example_msg 5)).sysID_stats 7).packets_lost = 0 := by
  decide

/-! ## Liveness sweep (checkForDeadSysID) -/

/-- The sweep loop has a defined result exactly when it erases nothing. -/
theorem checkForDeadSysID_loop_eq_none (T nowTime : Int) (count : Nat)
    (m : StdMap packet_stats) :
    checkForDeadSysID_loop T nowTime count m = none
      ↔ count > 0 ∧ ∃ e ∈ m,
          total_milliseconds (time_since nowTime e.2.last_packet_time) > T := by
  induction m with
  | nil => simp [checkForDeadSysID_loop]
  | cons e rest ih =>
    obtain ⟨k, st⟩ := e
    unfold checkForDeadSysID_loop
    by_cases h : total_milliseconds (time_since nowTime st.last_packet_time) > T ∧ count > 0
    · simp only [h, and_self, if_true, true_and]
      simp only [true_iff]
      exact ⟨(k, st), List.mem_cons_self _ _, h.1⟩
    · simp only [h, if_false, ih, List.mem_cons]
      constructor
      · rintro ⟨hc, e, he, hT⟩
        exact ⟨hc, e, Or.inr he, hT⟩
      · rintro ⟨hc, e, he, hT⟩
        rcases he with rfl | he
        · exact absurd ⟨hT, hc⟩ h
        · exact ⟨hc, e, he, hT⟩

/-- The function `checkForDeadSysID` on a link without packets, or without an entry that
has timed out, leaves the link as it is. -/
theorem checkForDeadSysID_nothing_to_erase (T nowTime : Int) (L : mlink)
    (h : L.recentPacketCount = 0 ∨ ∀ e ∈ L.sysID_stats,
      total_milliseconds (time_since nowTime e.2.last_packet_time) ≤ T) :
    checkForDeadSysID T nowTime L = some L := by
  unfold checkForDeadSysID
  cases hl : checkForDeadSysID_loop T nowTime L.recentPacketCount L.sysID_stats with
  | some u => rfl
  | none =>
    rw [checkForDeadSysID_loop_eq_none] at hl
    obtain ⟨hc, e, he, hT⟩ := hl
    rcases h with h | h
    · omega
    · have := h e he
      omega

/-- C9 (the code at the failing input): source 7 was last heard at time 0 on
a link that has recorded packets, the timeout is 10000 ms and the sweep runs
at 20 s.  The claim asks for the table of the entries that have not timed
out, here the empty table.  The sweep erases the entry through the loop
iterator and then increments that iterator, and so has no defined result. -/
theorem C9_sweep_of_dead_source_undefined :
    total_milliseconds (time_since 20000000 (some 0)) > 10000
    ∧ spec_live_entries 10000 20000000 example_silent_link = []
    ∧ checkForDeadSysID 10000 20000000 example_silent_link = none := by
  decide

/-! ## Link delay (updateRouting) -/

/-- The seconds field is the whole duration in seconds as long as the
duration is not negative and shorter than a minute. -/
theorem time_duration_seconds_below_minute (d : Int) (h0 : 0 ≤ d) (h60 : d < 60 * 1000000) :
    time_duration_seconds d = Int.tdiv d 1000000 := by
  unfold time_duration_seconds
  have hd : Int.tdiv d 1000000 = d / 1000000 :=
    Int.tdiv_eq_ediv h0 (by norm_num)
  have hlt : d / 1000000 < 60 := by omega
  have hge : 0 ≤ d / 1000000 := by omega
  rw [hd, Int.tmod_eq_emod hge (by norm_num)]
  omega

/-- What `updateRouting` stores for a heartbeat of a source that has received
packets before, when `newSysID` reads as false and the flush has a defined
result: the seconds field of `nowTime - last_heartbeat - 1 s`, and `nowTime`
as the new `last_heartbeat`. -/
theorem updateRouting_heartbeat (nowTime : Int) (L L2 : mlink) (G G2 : mlink_statics)
    (msg : mavlink_message_t) (hhb : msg.msgid = 0)
    (hold : (StdMap.at L.sysID_stats msg.sysid).num_packets_received ≠ 0)
    (hres : updateRouting nowTime false L G msg = some (L2, G2)) :
    L2.link_quality.link_delay
      = time_duration_seconds (nowTime - L.link_quality.last_heartbeat - one_second)
    ∧ L2.link_quality.last_heartbeat = nowTime := by
  unfold updateRouting at hres
  simp only [beq_iff_eq, hold, decide_False, Bool.false_eq_true, if_false, hhb,
    and_self, if_true] at hres
  cases hfl : flush_recently_read nowTime G with
  | none => simp [hfl] at hres
  | some G3 =>
    simp only [hfl, Option.some.injEq, Prod.mk.injEq] at hres
    obtain ⟨hL, _⟩ := hres
    subst hL
    exact ⟨rfl, rfl⟩

/-- C10 (the code at the failing input): source 7 has received packets on
the link, the last heartbeat is stored as time 0 and a heartbeat arrives at
62 s.  The claim asks for a delay of 62 s - 0 s - 1 s = 61 s; the code
stores `delay.seconds()`, the seconds field of 1 min 1 s, which is 1 (and
`last_heartbeat` is 62 s).  With the indeterminate `newSysID` read as true
the heartbeat branch is skipped and both fields stay as they were. -/
theorem C10_delay_loses_whole_minutes :
    Int.tdiv (62000000 - example_silent_link.link_quality.last_heartbeat - one_second)
        1000000 = 61
    ∧ (updateRouting 62000000 false example_silent_link
        { static_link_delay := [0], sysIDs_all_links := [7] } (example_heartbeat 3)).map
        (fun r => (r.1.link_quality.link_delay, r.1.link_quality.last_heartbeat))
      = some (1, 62000000)
    ∧ (updateRouting 62000000 true example_silent_link
        { static_link_delay := [0], sysIDs_all_links := [7] } (example_heartbeat 3)).map
        (fun r => (r.1.link_quality.link_delay, r.1.link_quality.last_heartbeat))
      = some (0, 0) := by
  decide

/-- The flush loop over the sources never writes `static_link_delay`. -/
theorem flush_sysIDs_static_link_delay (now : Int) (ids : List Nat) :
    ∀ (G G' : mlink_statics), flush_sysIDs now ids G = some G' →
      G'.static_link_delay = G.static_link_delay := by
  induction ids with
  | nil =>
    intro G G' h
    simp only [flush_sysIDs, Option.some.injEq] at h
    rw [← h]
  | cons sysID rest ih =>
    intro G G' h
    unfold flush_sysIDs at h
    dsimp only at h
    split at h
    · exact absurd h (by simp)
    · have h2 := ih _ G' h
      exact h2

/-- The function `updateRouting` never writes `static_link_delay`, so
`max_delay()` is the same before and after it. -/
theorem updateRouting_max_delay (nowTime : Int) (newSysID0 : Bool) (L L1 : mlink)
    (G G1 : mlink_statics) (msg : mavlink_message_t)
    (h : updateRouting nowTime newSysID0 L G msg = some (L1, G1)) :
    max_delay G1 = max_delay G := by
  have hs : G1.static_link_delay = G.static_link_delay := by
    unfold updateRouting at h
    dsimp only at h
    split_ifs at h with hnew hhb hhb
    · cases hfl : flush_recently_read nowTime
          { G with sysIDs_all_links := StdSet.insert G.sysIDs_all_links msg.sysid } with
      | none => simp [hfl] at h
      | some G2 =>
        simp only [hfl, Option.some.injEq, Prod.mk.injEq] at h
        rw [← h.2]
        unfold flush_recently_read at hfl
        have h2 := flush_sysIDs_static_link_delay nowTime _ _ G2 hfl
        exact h2
    · simp only [Option.some.injEq, Prod.mk.injEq] at h
      rw [← h.2]
    · cases hfl : flush_recently_read nowTime G with
      | none => simp [hfl] at h
      | some G2 =>
        simp only [hfl, Option.some.injEq, Prod.mk.injEq] at h
        rw [← h.2]
        unfold flush_recently_read at hfl
        have h2 := flush_sysIDs_static_link_delay nowTime _ _ G2 hfl
        exact h2
    · simp only [Option.some.injEq, Prod.mk.injEq] at h
      rw [← h.2]
  unfold max_delay
  rw [hs]

/-- C11 (as stated) fails: the first message of source 7 on the link is a
heartbeat received at 5 s; `last_heartbeat` stays at its old value 0 and is
not set to the receive time. -/
theorem C11_counterexample_no_baseline :
    StdMap.find example_link.sysID_stats (example_heartbeat 1).sysid = none
    ∧ (updateRouting 5000000 false example_link example_statics (example_heartbeat 1)).map
        (fun r => (r.1.link_quality.link_delay, r.1.link_quality.last_heartbeat))
      = some (example_link.link_quality.link_delay, 0)
    ∧ (0 : Int) ≠ 5000000 := by
  decide

/-- C11 (amended): when the first message a link receives from a source is a
heartbeat (the source had no received packets on this link), `updateRouting`
returns, takes no delay sample and establishes no baseline: `link_delay` and
`last_heartbeat` are both unchanged, whatever the indeterminate `newSysID`
held. -/
theorem C11_first_heartbeat_leaves_link_quality (nowTime : Int) (newSysID0 : Bool)
    (L : mlink) (G : mlink_statics) (msg : mavlink_message_t)
    (_hhb : msg.msgid = 0)
    (hnew : (StdMap.at L.sysID_stats msg.sysid).num_packets_received = 0) :
    ∃ L1 G1, updateRouting nowTime newSysID0 L G msg = some (L1, G1)
      ∧ L1.link_quality.link_delay = L.link_quality.link_delay
      ∧ L1.link_quality.last_heartbeat = L.link_quality.last_heartbeat := by
  unfold updateRouting
  simp only [hnew, beq_self_eq_true, if_true, Bool.true_eq_false, and_false, if_false]
  exact ⟨_, _, rfl, rfl, rfl⟩

/-- C11 (amended) for the first heartbeat of source 7 at 5 s. -/
theorem C11_first_heartbeat_leaves_link_quality_witness :
    ∃ L1 G1, updateRouting 5000000 false example_link example_statics (example_heartbeat 1)
        = some (L1, G1)
      ∧ L1.link_quality.link_delay = example_link.link_quality.link_delay
      ∧ L1.link_quality.last_heartbeat = example_link.link_quality.last_heartbeat :=
  C11_first_heartbeat_leaves_link_quality 5000000 false example_link example_statics
    (example_heartbeat 1) rfl rfl

/-- C12 (the code at the failing input): one link has been constructed, so
`static_link_delay` is `[0]`; source 7 is known, the last heartbeat is stored
as time 0 and a heartbeat arrives at 6 s.  `updateRouting` stores the delay
of 5 seconds in `link_quality.link_delay`, but nothing writes it to
`static_link_delay`: `max_delay()` is still the zero duration, below the
5 s (5000000 microseconds) that were measured. -/
theorem C12_measured_delay_not_in_max_delay :
    example_statics.static_link_delay = [0]
    ∧ (updateRouting 6000000 false example_silent_link example_statics
        (example_heartbeat 3)).map
        (fun r => (r.1.link_quality.link_delay, r.2.static_link_delay, max_delay r.2))
      = some (5, [0], 0)
    ∧ (0 : Int) < 5 * one_second := by
  decide

/-! ## Outgoing queue and simulated loss -/

/-- C13: while `is_kill` is set, `qAddOutgoing` changes nothing: the outgoing
queue `qMavOut` and the counter `recentPacketSent` (and every other member
of the link) are the same after the call as before, for every message and
queue capacity. -/
theorem C13_killed_link_sends_nothing (MAV_OUTGOING_LENGTH : Nat) (L : mlink)
    (msg : mavlink_message_t) (hkill : L.is_kill = true) :
    (qAddOutgoing MAV_OUTGOING_LENGTH L msg).qMavOut = L.qMavOut
    ∧ (qAddOutgoing MAV_OUTGOING_LENGTH L msg).recentPacketSent = L.recentPacketSent
    ∧ qAddOutgoing MAV_OUTGOING_LENGTH L msg = L := by
  have h : qAddOutgoing MAV_OUTGOING_LENGTH L msg = L := by
    unfold qAddOutgoing
    simp [hkill]
  rw [h]
  exact ⟨rfl, rfl, rfl⟩

/-- C13 on a killed link with one queued message and room in the queue. -/
theorem C13_killed_link_sends_nothing_witness :
    (qAddOutgoing 1000 { is_kill := true, qMavOut := [example_msg 1], recentPacketSent := 1 }
        (example_msg 2)).qMavOut
      = ({ is_kill := true, qMavOut := [example_msg 1], recentPacketSent := 1 } : mlink).qMavOut
    ∧ (qAddOutgoing 1000 { is_kill := true, qMavOut := [example_msg 1], recentPacketSent := 1 }
        (example_msg 2)).recentPacketSent
      = ({ is_kill := true, qMavOut := [example_msg 1],
           recentPacketSent := 1 } : mlink).recentPacketSent
    ∧ qAddOutgoing 1000 { is_kill := true, qMavOut := [example_msg 1], recentPacketSent := 1 }
        (example_msg 2)
      = { is_kill := true, qMavOut := [example_msg 1], recentPacketSent := 1 } :=
  C13_killed_link_sends_nothing 1000
    { is_kill := true, qMavOut := [example_msg 1], recentPacketSent := 1 } (example_msg 2) rfl

/-- With simulation enabled and a loss percentage of 100, `shouldDropPacket`
drops exactly when the drawn number `rand() % 100 + 1` is below 100. -/
theorem shouldDropPacket_loss_100 (L : mlink) (rand_value : Nat)
    (hsim : L.info.sim_enable = true) (hloss : L.info.sim_packet_loss = 100) :
    shouldDropPacket L rand_value = true ↔ rand_value % 100 ≠ 99 := by
  unfold shouldDropPacket
  simp only [hsim, if_true, hloss]
  by_cases hlt : ((rand_value % 100 + 1 : Nat) : Int) < 100
  · rw [if_pos hlt]
    constructor
    · intro _
      omega
    · intro _
      rfl
  · rw [if_neg hlt]
    constructor
    · intro h
      exact absurd h (by simp)
    · intro h
      omega

/-- C14 (the code at the failing input): simulation is enabled with
`sim_packet_loss = 100` and `rand()` returns 99, so the drawn number is
`99 % 100 + 1 = 100`; the test `100 < 100` fails and the packet passes. -/
theorem C14_loss_100_lets_one_in_hundred_pass :
    (example_sim_link 100).info.sim_enable = true
    ∧ (example_sim_link 100).info.sim_packet_loss = 100
    ∧ shouldDropPacket (example_sim_link 100) 99 = false
    ∧ shouldDropPacket (example_sim_link 100) 98 = true := by
  decide

/-- C15: `shouldDropPacket` returns false for every value of `rand()` when
simulation is enabled with `sim_packet_loss = 0`, and for every loss
percentage when simulation is disabled. -/
theorem C15_no_loss_configured_passes (L : mlink) (rand_value : Nat)
    (h : (L.info.sim_enable = true ∧ L.info.sim_packet_loss = 0)
      ∨ L.info.sim_enable = false) :
    shouldDropPacket L rand_value = false := by
  unfold shouldDropPacket
  rcases h with ⟨hsim, hloss⟩ | hsim
  · simp only [hsim, if_true, hloss]
    have hge : ¬ (((rand_value % 100 + 1 : Nat) : Int) < 0) := by omega
    rw [if_neg hge]
  · simp [hsim]

/-- C15 with simulation enabled, loss 0 and `rand()` returning 0. -/
theorem C15_no_loss_configured_passes_witness :
    shouldDropPacket (example_sim_link 0) 0 = false :=
  C15_no_loss_configured_passes (example_sim_link 0) 0 (Or.inl ⟨rfl, rfl⟩)

/-! ## Link quality (onMessageRecv) -/

/-- The function `updateRouting` leaves the radio-health fields and the
configuration of the link as they are. -/
theorem updateRouting_radio_health (nowTime : Int) (newSysID0 : Bool) (L L1 : mlink)
    (G G1 : mlink_statics) (msg : mavlink_message_t)
    (h : updateRouting nowTime newSysID0 L G msg = some (L1, G1)) :
    radio_health L1.link_quality = radio_health L.link_quality ∧ L1.info = L.info := by
  unfold updateRouting at h
  dsimp only at h
  split_ifs at h
  all_goals
    first
    | (simp only [Option.some.injEq, Prod.mk.injEq] at h
       rw [← h.1]
       exact ⟨rfl, rfl⟩)
    | (split at h
       · exact absurd h (by simp)
       · simp only [Option.some.injEq, Prod.mk.injEq] at h
         rw [← h.1]
         exact ⟨rfl, rfl⟩)

/-- For a message that is not a heartbeat `updateRouting` returns and leaves
the whole link-quality record as it is. -/
theorem updateRouting_not_heartbeat (nowTime : Int) (newSysID0 : Bool) (L : mlink)
    (G : mlink_statics) (msg : mavlink_message_t) (hid : msg.msgid ≠ 0) :
    ∃ L1 G1, updateRouting nowTime newSysID0 L G msg = some (L1, G1)
      ∧ L1.link_quality = L.link_quality ∧ L1.info = L.info := by
  unfold updateRouting
  simp only [hid, false_and, if_false]
  exact ⟨_, _, rfl, rfl, rfl⟩

/-- C16: `onMessageRecv` changes `link_delay` only for a heartbeat and the
radio-health fields (`local_rssi`, `remote_rssi`, `tx_buffer`, `local_noise`,
`remote_noise`, `rx_errors`, `corrected_packets`) only for msgid 109 or 166.
For every message that is not a heartbeat the call returns true and
`link_delay` is as before; for every message of another kind than 109 and
166 the radio-health fields are as before in every result of the call. -/
theorem C16_link_quality_changes_only_for_its_kinds (nowTime : Int) (newSysID0 : Bool)
    (L : mlink) (G : mlink_statics) (msg : mavlink_message_t) :
    (msg.msgid ≠ 0 → ∃ L1 G1, onMessageRecv nowTime newSysID0 L G msg = some (true, L1, G1)
        ∧ L1.link_quality.link_delay = L.link_quality.link_delay)
    ∧ (msg.msgid ≠ 109 → msg.msgid ≠ 166 → ∀ b L1 G1,
        onMessageRecv nowTime newSysID0 L G msg = some (b, L1, G1) →
        radio_health L1.link_quality = radio_health L.link_quality) := by
  constructor
  · intro hid
    obtain ⟨L1, G1, hres, hq, _⟩ := updateRouting_not_heartbeat nowTime newSysID0
      { L with recentPacketCount := L.recentPacketCount + 1 } G msg hid
    unfold onMessageRecv
    simp only [hres]
    refine ⟨_, _, rfl, ?_⟩
    split_ifs
    · simp only
      rw [hq]
    · rw [hq]
  · intro h109 h166 b L1 G1 hres
    unfold onMessageRecv at hres
    cases hup : updateRouting nowTime newSysID0
        { L with recentPacketCount := L.recentPacketCount + 1 } G msg with
    | none => simp [hup] at hres
    | some r =>
      obtain ⟨L2, G2⟩ := r
      have hkind : ¬ (L2.info.SiK_radio = true ∧ (msg.msgid = 109 ∨ msg.msgid = 166)) := by
        rintro ⟨_, h | h⟩
        · exact h109 h
        · exact h166 h
      simp only [hup, hkind, if_false, Option.some.injEq, Prod.mk.injEq] at hres
      rw [← hres.2.1]
      exact (updateRouting_radio_health nowTime newSysID0 _ L2 G G2 msg hup).1

/-- The frame of `onMessageRecv` on a radio link: a radio-status report
overwrites the radio-health snapshot and keeps `link_delay`; a message of
kind 30 keeps both. -/
theorem onMessageRecv_on_radio_link :
    (onMessageRecv 1000000 false example_radio_link example_statics example_radio_status).map
        (fun r => (r.1, radio_health r.2.1.link_quality, r.2.1.link_quality.link_delay))
      = some (true, (180, 170, 80, 30, 35, 17, 9), 4)
    ∧ (onMessageRecv 1000000 false example_radio_link example_statics (example_msg 2)).map
        (fun r => (r.1, radio_health r.2.1.link_quality, r.2.1.link_quality.link_delay))
      = some (true, (200, 190, 90, 40, 45, 2, 3), 4) :=
  ⟨rfl, rfl⟩

/-- The result of `max_delay`'s loop from the running value `ret`. -/
theorem max_delay_loop (l : List Int) :
    ∀ ret : Int,
      ret ≤ l.foldl (fun ret delay => if delay > ret then delay else ret) ret
      ∧ (∀ d ∈ l, d ≤ l.foldl (fun ret delay => if delay > ret then delay else ret) ret)
      ∧ (l.foldl (fun ret delay => if delay > ret then delay else ret) ret = ret
          ∨ l.foldl (fun ret delay => if delay > ret then delay else ret) ret ∈ l) := by
  induction l with
  | nil =>
    intro ret
    simp
  | cons delay rest ih =>
    intro ret
    simp only [List.foldl_cons, List.mem_cons]
    by_cases h : delay > ret
    · simp only [h, if_true]
      obtain ⟨h1, h2, h3⟩ := ih delay
      refine ⟨by omega, ?_, ?_⟩
      · rintro d (rfl | hd)
        · exact h1
        · exact h2 d hd
      · rcases h3 with h3 | h3
        · exact Or.inr (Or.inl h3)
        · exact Or.inr (Or.inr h3)
    · simp only [h, if_false]
      obtain ⟨h1, h2, h3⟩ := ih ret
      refine ⟨h1, ?_, ?_⟩
      · rintro d (rfl | hd)
        · omega
        · exact h2 d hd
      · rcases h3 with h3 | h3
        · exact Or.inl h3
        · exact Or.inr (Or.inr h3)

/-! ## The delay bound and the flush -/

/-- C18: for every content of `static_link_delay`, `max_delay` returns a
value that is at least every element and at least the zero duration, and
that is the zero duration or an element of the collection; it is zero when
the collection is empty or holds no positive delay. -/
theorem C18_max_delay_is_running_maximum (G : mlink_statics) :
    (∀ d ∈ G.static_link_delay, d ≤ max_delay G)
    ∧ 0 ≤ max_delay G
    ∧ (max_delay G = 0 ∨ max_delay G ∈ G.static_link_delay)
    ∧ (G.static_link_delay = [] → max_delay G = 0)
    ∧ ((∀ d ∈ G.static_link_delay, d ≤ 0) → max_delay G = 0) := by
  obtain ⟨h1, h2, h3⟩ := max_delay_loop G.static_link_delay 0
  refine ⟨h2, h1, h3, ?_, ?_⟩
  · intro hnil
    unfold max_delay
    rw [hnil]
    rfl
  · intro hall
    rcases h3 with h3 | h3
    · exact h3
    · have := hall _ h3
      unfold max_delay
      omega

/-- C17 (the code at the failing input): source 7 is known and its partition
holds one entry, first seen at time 0; no delay has been measured and the
flush runs at 2 s.  The age of 2 s exceeds max(1 s, max_delay()), so the
claim asks for the partition without the entry.  The flush erases the entry
through the loop iterator and then increments that iterator, and so has no
defined result. -/
theorem C17_flush_of_old_entry_undefined :
    (2000000 : Int) - 0 > max one_second (max_delay example_statics_cached)
    ∧ spec_flush_partition 2000000 example_statics_cached 7 = []
    ∧ flush_recently_read 2000000 example_statics_cached = none
    ∧ flush_recently_read 500000 example_statics_cached = some example_statics_cached := by
  decide

/-! ## The cache invariant -/

theorem StdMap.mem_assign {β : Type} (m : StdMap β) (k : Nat) (v : β) (p : Nat × β)
    (h : p ∈ StdMap.assign m k v) : p = (k, v) ∨ p ∈ m := by
  induction m with
  | nil =>
    simp only [StdMap.assign, List.mem_singleton] at h
    exact Or.inl h
  | cons e t ih =>
    obtain ⟨k1, v1⟩ := e
    unfold StdMap.assign at h
    split_ifs at h with h1 h2
    · rcases List.mem_cons.1 h with h | h
      · exact Or.inl h
      · exact Or.inr h
    · rcases List.mem_cons.1 h with h | h
      · exact Or.inl h
      · exact Or.inr (List.mem_cons_of_mem _ h)
    · rcases List.mem_cons.1 h with h | h
      · exact Or.inr (by rw [h]; exact List.mem_cons_self _ _)
      · rcases ih h with h | h
        · exact Or.inl h
        · exact Or.inr (List.mem_cons_of_mem _ h)

theorem StdMap.assign_keys_increasing {β : Type} (m : StdMap β) (k : Nat) (v : β)
    (h : StdMap.keys_increasing m) : StdMap.keys_increasing (StdMap.assign m k v) := by
  unfold StdMap.keys_increasing at h ⊢
  induction m with
  | nil => simp [StdMap.assign]
  | cons e t ih =>
    obtain ⟨k1, v1⟩ := e
    rw [List.pairwise_cons] at h
    obtain ⟨hhead, htail⟩ := h
    unfold StdMap.assign
    split_ifs with h1 h2
    · rw [List.pairwise_cons]
      refine ⟨?_, List.pairwise_cons.2 ⟨hhead, htail⟩⟩
      intro b hb
      rcases List.mem_cons.1 hb with hb | hb
      · rw [hb]
        exact h1
      · exact lt_trans h1 (hhead b hb)
    · rw [List.pairwise_cons]
      refine ⟨?_, htail⟩
      intro b hb
      rw [h2]
      exact hhead b hb
    · rw [List.pairwise_cons]
      refine ⟨?_, ih htail⟩
      intro b hb
      rcases StdMap.mem_assign t k v b hb with hb | hb
      · rw [hb]
        show k1 < k
        omega
      · exact hhead b hb

theorem StdMap.find_mem {β : Type} (m : StdMap β) (k : Nat) (v : β)
    (h : StdMap.find m k = some v) : (k, v) ∈ m := by
  induction m with
  | nil => simp [StdMap.find] at h
  | cons e t ih =>
    obtain ⟨k1, v1⟩ := e
    unfold StdMap.find at h
    split_ifs at h with h1
    · simp only [Option.some.injEq] at h
      rw [h1, h]
      exact List.mem_cons_self _ _
    · exact List.mem_cons_of_mem _ (ih h)

/-- A map with increasing keys has at most one entry for a key. -/
theorem StdMap.filter_key_length {β : Type} (m : StdMap β) (k : Nat)
    (h : StdMap.keys_increasing m) :
    m.filter (fun e => decide (e.1 = k)) = []
      ∨ ∃ v, m.filter (fun e => decide (e.1 = k)) = [(k, v)] ∧ (k, v) ∈ m := by
  unfold StdMap.keys_increasing at h
  induction m with
  | nil => exact Or.inl rfl
  | cons e t ih =>
    obtain ⟨k1, v1⟩ := e
    rw [List.pairwise_cons] at h
    obtain ⟨hhead, htail⟩ := h
    by_cases hk : k1 = k
    · subst hk
      right
      refine ⟨v1, ?_, List.mem_cons_self _ _⟩
      have hnil : t.filter (fun e => decide (e.1 = k1)) = [] := by
        rw [List.filter_eq_nil_iff]
        intro b hb
        have := hhead b hb
        simp only [decide_eq_true_eq]
        omega
      simp [List.filter_cons, hnil]
    · rcases ih htail with h0 | ⟨v, hv, hmem⟩
      · left
        simp [List.filter_cons, hk, h0]
      · right
        refine ⟨v, ?_, List.mem_cons_of_mem _ hmem⟩
        simp [List.filter_cons, hk, hv]

/-- The invariant of the cache: the sources and, in every partition, the
fingerprints are in increasing order. -/
theorem cache_reachable_keys_increasing (G : mlink_statics) (h : cache_reachable G) :
    StdMap.keys_increasing G.recently_received
    ∧ ∀ p ∈ G.recently_received, StdMap.keys_increasing p.2 := by
  have hat : ∀ (G : mlink_statics) (s : Nat),
      (∀ p ∈ G.recently_received, StdMap.keys_increasing p.2) →
      StdMap.keys_increasing (StdMap.at G.recently_received s) := by
    intro G s hparts
    unfold StdMap.at
    cases hf : StdMap.find G.recently_received s with
    | none => exact List.Pairwise.nil
    | some part => exact hparts _ (StdMap.find_mem _ _ _ hf)
  induction h with
  | start G h0 =>
    rw [h0]
    exact ⟨List.Pairwise.nil, fun p hp => absurd hp (List.not_mem_nil p)⟩
  | record C crc0 now L G msg _ ih =>
    obtain ⟨hout, hparts⟩ := ih
    unfold record_incoming_packet
    dsimp only
    split_ifs
    · exact ⟨hout, hparts⟩
    · split
      · refine ⟨StdMap.assign_keys_increasing _ _ _ hout, ?_⟩
        intro p hp
        rcases StdMap.mem_assign _ _ _ p hp with hp | hp
        · rw [hp]
          exact StdMap.assign_keys_increasing _ _ _ (hat G msg.sysid hparts)
        · exact hparts p hp
      · exact ⟨hout, hparts⟩
  | flush now G G1 _ hfl ih =>
    unfold flush_recently_read at hfl
    have hgen : ∀ (ids : List Nat) (G G1 : mlink_statics),
        flush_sysIDs now ids G = some G1 →
        (StdMap.keys_increasing G.recently_received
          ∧ ∀ p ∈ G.recently_received, StdMap.keys_increasing p.2) →
        (StdMap.keys_increasing G1.recently_received
          ∧ ∀ p ∈ G1.recently_received, StdMap.keys_increasing p.2) := by
      intro ids
      induction ids with
      | nil =>
        intro G G1 h hinv
        simp only [flush_sysIDs, Option.some.injEq] at h
        rw [← h]
        exact hinv
      | cons sysID rest ihr =>
        intro G G1 h hinv
        unfold flush_sysIDs at h
        dsimp only at h
        split at h
        · exact absurd h (by simp)
        · refine ihr _ G1 h ⟨StdMap.assign_keys_increasing _ _ _ hinv.1, ?_⟩
          intro p hp
          rcases StdMap.mem_assign _ _ _ p hp with hp | hp
          · rw [hp]
            exact hat G sysID hinv.2
          · exact hinv.2 p hp
    exact hgen _ G G1 hfl ih
  | other G G1 _ heq ih =>
    rw [heq]
    exact ih

/-- A flush with a defined result has removed no entry and changed no
timestamp. -/
theorem flush_recently_read_cacheEntry (now : Int) (G G1 : mlink_statics) (s f : Nat)
    (h : flush_recently_read now G = some G1) : cacheEntry G1 s f = cacheEntry G s f := by
  unfold flush_recently_read at h
  have hgen : ∀ (ids : List Nat) (G G1 : mlink_statics),
      flush_sysIDs now ids G = some G1 → cacheEntry G1 s f = cacheEntry G s f := by
    intro ids
    induction ids with
    | nil =>
      intro G G1 h
      simp only [flush_sysIDs, Option.some.injEq] at h
      rw [← h]
    | cons sysID rest ihr =>
      intro G G1 h
      unfold flush_sysIDs at h
      dsimp only at h
      split at h
      · exact absurd h (by simp)
      · rw [ihr _ G1 h]
        simp only [cacheEntry, StdMap.find_assign]
        by_cases hs : s = sysID
        · subst hs
          simp only [if_true, Option.some_bind]
          rw [cacheEntry_eq_find]
          rfl
        · simp only [hs, if_false]
  exact hgen _ G G1 h

/-- The duplicate verdict leaves the statics as they were. -/
theorem record_incoming_packet_duplicate (C : mavlink_codec) (crc0 : Nat) (now : Int)
    (L : mlink) (G : mlink_statics) (msg : mavlink_message_t)
    (h : (record_incoming_packet C crc0 now L G msg).1 = false) :
    (record_incoming_packet C crc0 now L G msg).2.2 = G := by
  unfold record_incoming_packet at h ⊢
  dsimp only at h ⊢
  split_ifs at h ⊢
  cases hf : StdMap.find (StdMap.at G.recently_received msg.sysid)
      (payload_crc C crc0 msg) with
  | none =>
    rw [hf] at h
    exact absurd h (by simp)
  | some t => rfl

/-- A cache with increasing keys holds at most one entry for a source and a
fingerprint. -/
theorem cache_entry_count_le_one (G : mlink_statics) (s f : Nat)
    (hout : StdMap.keys_increasing G.recently_received)
    (hparts : ∀ p ∈ G.recently_received, StdMap.keys_increasing p.2) :
    cache_entry_count G s f ≤ 1 := by
  unfold cache_entry_count
  rcases StdMap.filter_key_length G.recently_received s hout with h0 | ⟨part, hpart, hmem⟩
  · rw [h0]
    simp
  · rw [hpart]
    simp only [List.map_cons, List.map_nil, List.sum_cons, List.sum_nil, add_zero]
    rcases StdMap.filter_key_length part f (hparts _ hmem) with h1 | ⟨t, ht, _⟩
    · rw [h1]
      simp
    · rw [ht]
      simp

/-- C19: in every state of the statics that is reachable through
`record_incoming_packet` and `flush_recently_read` calls of any links,
`recently_received` holds at most one entry for a source `s` and a
fingerprint `f`.  Its timestamp is the time of the first observation: a
call that finds no entry for its source and fingerprint stores the time of
the call; a call that reports a duplicate (returns false) leaves the statics
unchanged; no `record_incoming_packet` call and no flush changes the
timestamp of an entry that is there. -/
theorem C19_one_entry_with_first_seen_time (G : mlink_statics) (hreach : cache_reachable G)
    (s f : Nat) (C : mavlink_codec) (crc0 : Nat) (now : Int) (L : mlink)
    (msg : mavlink_message_t) :
    cache_entry_count G s f ≤ 1
    ∧ ((record_incoming_packet C crc0 now L G msg).1 = false →
        (record_incoming_packet C crc0 now L G msg).2.2 = G)
    ∧ (∀ t, cacheEntry G s f = some t →
        cacheEntry (record_incoming_packet C crc0 now L G msg).2.2 s f = some t)
    ∧ (∀ G1, flush_recently_read now G = some G1 → cacheEntry G1 s f = cacheEntry G s f)
    ∧ (L.info.reject_repeat_packets = true → msg.msgid ≠ 0 →
        cacheEntry G msg.sysid (payload_crc C crc0 msg) = none →
        cacheEntry (record_incoming_packet C crc0 now L G msg).2.2 msg.sysid
          (payload_crc C crc0 msg) = some now)
    ∧ cache_reachable (record_incoming_packet C crc0 now L G msg).2.2 := by
  obtain ⟨hout, hparts⟩ := cache_reachable_keys_increasing G hreach
  refine ⟨cache_entry_count_le_one G s f hout hparts,
    record_incoming_packet_duplicate C crc0 now L G msg,
    fun t ht => record_incoming_packet_keeps_entries C crc0 now L G msg s f t ht,
    fun G1 h1 => flush_recently_read_cacheEntry now G G1 s f h1,
    fun hrej hid hnone => record_incoming_packet_insert C crc0 now L G msg hrej hid hnone,
    cache_reachable.record C crc0 now L G msg hreach⟩

/-- C19 on the cache that holds source 7, fingerprint 6 since time 0, with a
repetition of the message arriving at 0.05 s. -/
theorem C19_one_entry_with_first_seen_time_witness :
    cache_entry_count example_cache_after_first 7 6 ≤ 1
    ∧ ((record_incoming_packet example_codec 0 50000 example_link example_cache_after_first
          (example_msg 9)).1 = false →
        (record_incoming_packet example_codec 0 50000 example_link example_cache_after_first
          (example_msg 9)).2.2 = example_cache_after_first)
    ∧ (∀ t, cacheEntry example_cache_after_first 7 6 = some t →
        cacheEntry (record_incoming_packet example_codec 0 50000 example_link
          example_cache_after_first (example_msg 9)).2.2 7 6 = some t)
    ∧ (∀ G1, flush_recently_read 50000 example_cache_after_first = some G1 →
        cacheEntry G1 7 6 = cacheEntry example_cache_after_first 7 6)
    ∧ (example_link.info.reject_repeat_packets = true → (example_msg 9).msgid ≠ 0 →
        cacheEntry example_cache_after_first (example_msg 9).sysid
          (payload_crc example_codec 0 (example_msg 9)) = none →
        cacheEntry (record_incoming_packet example_codec 0 50000 example_link
          example_cache_after_first (example_msg 9)).2.2 (example_msg 9).sysid
          (payload_crc example_codec 0 (example_msg 9)) = some 50000)
    ∧ cache_reachable (record_incoming_packet example_codec 0 50000 example_link
        example_cache_after_first (example_msg 9)).2.2 :=
  C19_one_entry_with_first_seen_time example_cache_after_first
    (cache_reachable.record example_codec 0 0 example_link {} (example_msg 4)
      (cache_reachable.start {} rfl))
    7 6 example_codec 0 50000 example_link (example_msg 9)

/-! ## The checksum-extra search (find_crc_extra) -/

/-- What the search loop returns: the guess it was entered with when the
checksum already matches at the first test, and otherwise the successor
(modulo 256) of a guess `g` that reproduces the checksum. -/
theorem find_crc_extra_loop_result (C : mavlink_codec) (msg : mavlink_message_t)
    (buffer : List Nat) :
    ∀ (fuel crc_extra_guess tryChecksum e : Nat),
      find_crc_extra_loop C msg buffer fuel crc_extra_guess tryChecksum = some e →
      (msg.checksum = tryChecksum ∧ e = crc_extra_guess)
      ∨ ∃ g, e = (g + 1) % 256
          ∧ C.crc_accumulate g (C.crc_calculate ((buffer.drop 1).take (msg.len + 5)))
            = msg.checksum := by
  intro fuel
  induction fuel with
  | zero =>
    intro guess tryChecksum e h
    simp [find_crc_extra_loop] at h
  | succ fuel ih =>
    intro guess tryChecksum e h
    unfold find_crc_extra_loop at h
    by_cases hne : msg.checksum ≠ tryChecksum
    · rw [if_pos hne] at h
      rcases ih _ _ e h with ⟨hmatch, he⟩ | hex
      · exact Or.inr ⟨guess, he, hmatch.symm⟩
      · exact Or.inr hex
    · rw [if_neg hne] at h
      simp only [Option.some.injEq] at h
      exact Or.inl ⟨not_not.1 hne, h.symm⟩

/-- The value that `find_crc_extra` caches after a search (the kind was not
found before, the checksum is not 0): the successor modulo 256 of a guess
that reproduces the checksum, not that guess. -/
theorem find_crc_extra_caches_successor (C : mavlink_codec) (fuel : Nat) (found : List Nat)
    (msg : mavlink_message_t) (buffer crc_extras found1 crc_extras1 : List Nat)
    (hnew : msg.msgid ∉ found) (hck : msg.checksum ≠ 0)
    (hlen : msg.msgid < crc_extras.length)
    (h : find_crc_extra C fuel found msg buffer crc_extras = some (found1, crc_extras1)) :
    ∃ g, crc_extras1.getD msg.msgid 0 = (g + 1) % 256
      ∧ C.crc_accumulate g (C.crc_calculate ((buffer.drop 1).take (msg.len + 5)))
        = msg.checksum := by
  unfold find_crc_extra at h
  rw [if_neg hnew] at h
  cases hl : find_crc_extra_loop C msg buffer fuel 0 0 with
  | none => simp [hl] at h
  | some e =>
    simp only [hl, Option.some.injEq, Prod.mk.injEq] at h
    rcases find_crc_extra_loop_result C msg buffer fuel 0 0 e hl with ⟨h0, _⟩ | ⟨g, hg, hacc⟩
    · exact absurd h0 hck
    · refine ⟨g, ?_, hacc⟩
      rw [← h.2, ← hg]
      simp [List.getD_eq_getElem?_getD, List.getElem?_set, hlen]

/-- C20 (the code at the failing input): a message of kind 150 whose
checksum 40121 was computed with the checksum-extra 5.  The search of
`find_crc_extra` ends after the guess 5 has matched, but the guess has been
incremented by then: the table gets 6 for the kind, and accumulating 6 gives
44578, not the checksum of the message. -/
theorem C20_cached_extra_is_one_too_large :
    x25_codec.crc_accumulate 5 (x25_codec.crc_calculate
        (((x25_codec.mavlink_msg_to_send_buffer example_custom_msg).drop 1).take
          (example_custom_msg.len + 5))) = example_custom_msg.checksum
    ∧ (find_crc_extra x25_codec 300 [] example_custom_msg
        (x25_codec.mavlink_msg_to_send_buffer example_custom_msg)
        (List.replicate 256 0)).map (fun r => (r.1, r.2.getD 150 0)) = some ([150], 6)
    ∧ x25_codec.crc_accumulate 6 (x25_codec.crc_calculate
        (((x25_codec.mavlink_msg_to_send_buffer example_custom_msg).drop 1).take
          (example_custom_msg.len + 5))) = 44578
    ∧ (44578 : Nat) ≠ example_custom_msg.checksum := by
  decide

end CMavNode
